import Mathlib

/-!
Verification development for the open-scope repository.

The development embeds, in Lean, the core of
`src/dataset/dataset_script_mulio_fail_retry.py` (the fetch/retry pipeline:
`fetch_json`, `get_repo_info`, `process_repo`, and the retry-round scheduler
in `main`) and of `src/data/data.py` (`parse_topics` and the topic-related
portion of `analyze_dataset`), and proves or refutes the specification's
claims about them.
-/

namespace OpenScope

/-- A model of Python JSON-like values as handled by the scripts:
`None`, booleans, strings, integers, arrays and string-keyed dicts. -/
inductive Json where
  | null
  | bool (b : Bool)
  | str (s : String)
  | num (n : Int)
  | arr (xs : List Json)
  | obj (kvs : List (String × Json))
deriving Repr

mutual

def jbeq : Json → Json → Bool
  | .null, .null => true
  | .bool a, .bool b => a == b
  | .str a, .str b => a == b
  | .num a, .num b => a == b
  | .arr xs, .arr ys => jbeqList xs ys
  | .obj xs, .obj ys => jbeqObj xs ys
  | _, _ => false

def jbeqList : List Json → List Json → Bool
  | [], [] => true
  | x :: xs, y :: ys => jbeq x y && jbeqList xs ys
  | _, _ => false

def jbeqObj : List (String × Json) → List (String × Json) → Bool
  | p :: ps, q :: qs => p.1 == q.1 && jbeq p.2 q.2 && jbeqObj ps qs
  | [], [] => true
  | _, _ => false

end

mutual

theorem jbeq_iff : ∀ a b : Json, jbeq a b = true ↔ a = b
  | .null, .null => by simp [jbeq]
  | .bool a, .bool b => by simp [jbeq]
  | .str a, .str b => by simp [jbeq]
  | .num a, .num b => by simp [jbeq]
  | .arr xs, .arr ys => by simp [jbeq, jbeqList_iff xs ys]
  | .obj xs, .obj ys => by simp [jbeq, jbeqObj_iff xs ys]
  | .null, .bool _ | .null, .str _ | .null, .num _ | .null, .arr _ | .null, .obj _
  | .bool _, .null | .bool _, .str _ | .bool _, .num _ | .bool _, .arr _ | .bool _, .obj _
  | .str _, .null | .str _, .bool _ | .str _, .num _ | .str _, .arr _ | .str _, .obj _
  | .num _, .null | .num _, .bool _ | .num _, .str _ | .num _, .arr _ | .num _, .obj _
  | .arr _, .null | .arr _, .bool _ | .arr _, .str _ | .arr _, .num _ | .arr _, .obj _
  | .obj _, .null | .obj _, .bool _ | .obj _, .str _ | .obj _, .num _ | .obj _, .arr _ => by
      simp [jbeq]

theorem jbeqList_iff : ∀ xs ys : List Json, jbeqList xs ys = true ↔ xs = ys
  | [], [] => by simp [jbeqList]
  | [], _ :: _ => by simp [jbeqList]
  | _ :: _, [] => by simp [jbeqList]
  | x :: xs, y :: ys => by
      simp [jbeqList, jbeq_iff x y, jbeqList_iff xs ys]

theorem jbeqObj_iff : ∀ xs ys : List (String × Json), jbeqObj xs ys = true ↔ xs = ys
  | p :: ps, q :: qs => by
      obtain ⟨k₁, v₁⟩ := p
      obtain ⟨k₂, v₂⟩ := q
      simp [jbeqObj, jbeq_iff v₁ v₂, jbeqObj_iff ps qs, and_assoc]
  | [], [] => by simp [jbeqObj]
  | [], _ :: _ => by simp [jbeqObj]
  | _ :: _, [] => by simp [jbeqObj]

end

instance : DecidableEq Json := fun a b => decidable_of_iff _ (jbeq_iff a b)

namespace Json

/-- Python truthiness test `not data` for the values the scripts handle:
`None`, `False`, `""`, `0`, `[]` and the empty dict are falsy. -/
def falsy : Json → Bool
  | .null => true
  | .bool b => !b
  | .str s => s = ""
  | .num n => n = 0
  | .arr xs => xs.isEmpty
  | .obj kvs => kvs.isEmpty

/-- Dict lookup: `data[k]` / `data.get(k)` for dict values (first binding of
the key; Python dicts have unique keys). `none` when the key is absent or the
value is not a dict. -/
def getKey (k : String) : Json → Option Json
  | .obj kvs => (kvs.find? (fun p => p.1 = k)).map (·.2)
  | _ => none

/-- Python `k in data` as used by the scripts: key membership for dicts,
element membership for lists; the scripts only probe dicts this way. -/
def hasKey (k : String) : Json → Bool
  | .obj kvs => kvs.any (fun p => p.1 = k)
  | .arr xs => xs.any (fun x => x = Json.str k)
  | _ => false

/-- Python `data.get(k, default)`. -/
def getD (j : Json) (k : String) (default : Json) : Json :=
  (j.getKey k).getD default

end Json

namespace Retry

/-! Embedding of `src/dataset/dataset_script_mulio_fail_retry.py`. -/

def RETRY_LIMIT : Nat := 3

/-- An HTTP response as seen by `fetch_json`: status code, the
`X-RateLimit-Remaining` header (a string, if present), the
`X-RateLimit-Reset` header (already read as an integer, if present and
truthy), and the parsed JSON body (`r.json()`). -/
structure HttpResp where
  status : Nat
  remaining : Option String
  reset : Option Int
  body : Json
deriving DecidableEq, Repr

/-- The outcome of one attempt of `requests.get`: either a response, or a
raised transport exception with its type name and message. -/
inductive Attempt where
  | resp (r : HttpResp)
  | exc (ty msg : String)
deriving DecidableEq, Repr

/-- The `{"_error": reason}` dict the script uses as its error tag. -/
def errObj (s : String) : Json := .obj [("_error", .str s)]

/-- `fetch_json(url, headers, retry)`. The sequence of attempt outcomes for
this URL is supplied as `responses` (attempt number ↦ outcome) and the
current wall-clock time as `now`. Returns the JSON result together with the
list of sleep durations performed (`time.sleep` arguments, in seconds), in
order. The Python body sits entirely inside a `try`, so every raise site is
caught and converted to a retry or an error tag; the embedding is
correspondingly total. -/
def fetch_json (responses : Nat → Attempt) (now : Int) (retry : Nat) :
    Json × List Int :=
  match responses retry with
  | .resp r =>
    if r.status = 200 then
      (r.body, [])
    else if r.status = 404 then
      (errObj "not_found", [])
    else if r.status = 403 ∨ r.status = 429 then
      if r.remaining = some "0" ∧ r.reset.isSome then
        (errObj ("rate_limit_or_forbidden_" ++ toString r.status),
         [max (r.reset.getD 0 - now + 5) 10])
      else if h : retry < RETRY_LIMIT then
        let rec' := fetch_json responses now (retry + 1)
        (rec'.1, ((2 : Int) ^ retry) :: rec'.2)
      else
        (errObj ("rate_limit_or_forbidden_" ++ toString r.status), [])
    else
      (errObj ("status_" ++ toString r.status), [])
  | .exc ty msg =>
    if h : retry < RETRY_LIMIT then
      let rec' := fetch_json responses now (retry + 1)
      (rec'.1, ((2 : Int) ^ retry) :: rec'.2)
    else
      (errObj ("exception_" ++ ty ++ ": " ++ msg), [])
termination_by RETRY_LIMIT - retry
decreasing_by all_goals omega

/-- `get_repo_info`, applied to the JSON that `fetch_json` returned for the
metadata endpoint: a falsy payload or an `"_error"` tag is mapped to an
error dict, otherwise the three metadata fields are extracted
(`data.get("description")`, `data.get("homepage")`,
`data.get("topics", [])`). -/
def get_repo_info (data : Json) : Json :=
  if data.falsy then
    .obj [("_error", .str "unknown_error")]
  else if data.hasKey "_error" then
    .obj [("_error", (data.getKey "_error").getD .null)]
  else
    .obj [("description", data.getD "description" .null),
          ("homepage_url", data.getD "homepage" .null),
          ("topics", data.getD "topics" (.arr []))]

/-- One input row, as read by `csv.DictReader` (all fields are strings). -/
structure Row where
  repo_id : String
  repo_name : String
  total_openrank : String
deriving DecidableEq, Repr

/-- The result dict built by `process_repo`. `fail_reason` and
`readme_text` are `None`-able; the metadata fields hold whatever JSON the
info resolver produced. -/
structure Record where
  repo_id : String
  repo_name : String
  total_openrank : String
  description : Json
  homepage_url : Json
  topics : Json
  readme_text : Option Json
  success : Bool
  fail_reason : Option Json
deriving DecidableEq, Repr

/-- Python `readme_data["_error"] == "not_found"`: true exactly when the
tag's value is the string `"not_found"` (comparison of a non-string value
with a string is `False` in Python). -/
def isNotFoundTag (v : Option Json) : Bool :=
  match v with
  | some (.str s) => s = "not_found"
  | _ => false

/-- The pure part of `process_repo` (lines 103–135): given the row and the
outcomes of the two resolver calls (`info0` standing for
`get_repo_info(repo_name)` and `readme_data` for `get_readme(repo_name)`),
build the result record. The sequential flag updates of the source are kept:
step 1 sets `success`/`fail_reason` from the info outcome and substitutes
the empty info dict; step 2 overwrites them on a non-`not_found` readme
error. -/
def recordOf (row : Row) (info0 readme_data : Json) : Record :=
  let step1 :=
    if info0.hasKey "_error" then
      (false, info0.getKey "_error",
       Json.obj [("description", .null), ("homepage_url", .null),
                 ("topics", .arr [])])
    else
      (true, (none : Option Json), info0)
  let step2 :=
    if readme_data.hasKey "_error" then
      if !isNotFoundTag (readme_data.getKey "_error") then
        (false, readme_data.getKey "_error", (none : Option Json))
      else
        (step1.1, step1.2.1, (none : Option Json))
    else
      (step1.1, step1.2.1, readme_data.getKey "text")
  { repo_id := row.repo_id
    repo_name := row.repo_name
    total_openrank := row.total_openrank
    description := (step1.2.2.getKey "description").getD .null
    homepage_url := (step1.2.2.getKey "homepage_url").getD .null
    topics := (step1.2.2.getKey "topics").getD .null
    readme_text := step2.2.2
    success := step2.1
    fail_reason := step2.2.1 }

/-- A durable append performed by `process_repo` under the file lock. -/
inductive FileEvent where
  | outputAppend (r : Record)
  | successAppend (repo_id repo_name : String)
  | failedAppend (r : Record)
deriving DecidableEq, Repr

/-- `process_repo(row, success_repo_ids)` with the two resolver outcomes
supplied explicitly: returns the result record, the list of file appends it
performs (lines 137–147, in order), and the updated success-id set. -/
def process_repo (row : Row) (info0 readme_data : Json)
    (success_repo_ids : List String) :
    Record × List FileEvent × List String :=
  let result := recordOf row info0 readme_data
  if result.success then
    if row.repo_id ∈ success_repo_ids then
      (result, [.outputAppend result], success_repo_ids)
    else
      (result, [.outputAppend result, .successAppend row.repo_id row.repo_name],
       success_repo_ids ++ [row.repo_id])
  else
    (result, [.failedAppend result], success_repo_ids)

/-! ### The retry-round scheduler (`main`, lines 154–199) -/

/-- A Python dict keyed by `repo_id`, as an association list with insertion
order: assigning an existing key updates it in place, a new key is appended. -/
def dictInsert (k : String) (v : Row) :
    List (String × Row) → List (String × Row)
  | [] => [(k, v)]
  | (k', v') :: rest =>
    if k' = k then (k, v) :: rest else (k', v') :: dictInsert k v rest

/-- Dict lookup by key. -/
def dictLookup (k : String) : List (String × Row) → Option Row
  | [] => none
  | (k', v) :: rest => if k' = k then some v else dictLookup k rest

/-- Python `k in d`. -/
def dictHas (k : String) (d : List (String × Row)) : Bool :=
  d.any (fun p => p.1 = k)

/-- Lines 161–169: `pending_repos` (input rows whose id is not in the
success set) keyed into `pending_dict` by the dict comprehension, then each
previously persisted failed row added only when its id is not yet a key. -/
def pending_dict (all_rows : List Row) (success_repo_ids : List String)
    (failed_repos : List Row) : List (String × Row) :=
  let pending_repos := all_rows.filter (fun r => !success_repo_ids.contains r.repo_id)
  let d := pending_repos.foldl (fun d r => dictInsert r.repo_id r d) []
  failed_repos.foldl
    (fun d r => if dictHas r.repo_id d then d else dictInsert r.repo_id r d) d

/-- Line 170: `repos_to_process = list(pending_dict.values())`. -/
def repos_to_process (all_rows : List Row) (success_repo_ids : List String)
    (failed_repos : List Row) : List Row :=
  (pending_dict all_rows success_repo_ids failed_repos).map (·.2)

/-- One line of the failed-index file: `process_repo` appends full result
records to it during a round (line 147), while the round transition
overwrites it with bare work items (lines 185–193). -/
inductive FailedLine where
  | record (r : Record)
  | item (w : Row)
deriving DecidableEq, Repr

/-- Reading a failed-index line back as a work item (`load_jsonl` followed by
the `row["repo_id"] / ["repo_name"] / ["total_openrank"]` accesses): a full
record carries all three fields. -/
def lineToRow : FailedLine → Row
  | .item w => w
  | .record r =>
    { repo_id := r.repo_id, repo_name := r.repo_name,
      total_openrank := r.total_openrank }

/-- The work item re-queued for a failed record (lines 185–189). -/
def rowOf (r : Record) : Row :=
  { repo_id := r.repo_id, repo_name := r.repo_name,
    total_openrank := r.total_openrank }

/-- A change to the failed-index file: a `save_jsonl` full overwrite, or a
single-record append from `process_repo`. -/
inductive FailedFileOp where
  | overwrite (rows : List Row)
  | append (r : Record)
deriving DecidableEq, Repr

/-- The durable state touched by one scheduler run: the records appended to
the output log, the `{repo_id, repo_name}` pairs appended to the
success-index, the in-memory success-id set, the trace of failed-index file
operations, and the failed-index file's current content. -/
structure RunState where
  outputAppends : List Record
  succAppends : List (String × String)
  succIds : List String
  failedOps : List FailedFileOp
  failedContent : List FailedLine
deriving DecidableEq, Repr

/-- Applying one `process_repo` file append to the run state. -/
def applyEvent (st : RunState) : FileEvent → RunState
  | .outputAppend r => { st with outputAppends := st.outputAppends ++ [r] }
  | .successAppend i n => { st with succAppends := st.succAppends ++ [(i, n)] }
  | .failedAppend r =>
    { st with failedOps := st.failedOps ++ [.append r],
              failedContent := st.failedContent ++ [.record r] }

/-- One round of the scheduler: run `process_repo` on each pending row (the
worker pool is modelled sequentially; `env` supplies the two resolver
outcomes per row for this round), fold the file appends into the state, and
collect the work items of the failed records (`failed_next_round`,
lines 182–189). -/
def runRound (env : Row → Json × Json) :
    List Row → RunState → RunState × List Row
  | [], st => (st, [])
  | row :: rest, st =>
    let step := process_repo row (env row).1 (env row).2 st.succIds
    let st' := { step.2.1.foldl applyEvent st with succIds := step.2.2 }
    let next := runRound env rest st'
    (next.1, (if step.1.success then [] else [rowOf step.1]) ++ next.2)

/-- The `while repos_to_process:` loop (lines 176–197), with the round
environment indexed by round number and a fuel bound on the number of rounds
simulated. Returns the final state and whether the loop terminated within
the fuel. A round whose failures are non-empty overwrites the failed-index
with them (`save_jsonl(FAILED_FILE, failed_next_round)`) and recurses. -/
def runRounds (env : Nat → Row → Json × Json) :
    Nat → Nat → List Row → RunState → RunState × Bool
  | 0, _, pending, st => (st, pending.isEmpty)
  | fuel + 1, round, pending, st =>
    if pending.isEmpty then (st, true)
    else
      let step := runRound (env round) pending st
      if step.2.isEmpty then (step.1, true)
      else
        runRounds env fuel (round + 1) step.2
          { step.1 with failedOps := step.1.failedOps ++ [.overwrite step.2],
                        failedContent := step.2.map .item }

/-- `main()`: seed the success-id set from the success-index file, compute
the pending set from the input rows and the persisted failed-index lines,
truncate the failed-index (`save_jsonl(FAILED_FILE, [])`), and run the retry
rounds. -/
def mainRun (env : Nat → Row → Json × Json) (fuel : Nat)
    (all_rows : List Row) (succFile0 : List (String × String))
    (failedFile0 : List FailedLine) : RunState × Bool :=
  let success_repo_ids := succFile0.map (·.1)
  let failed_repos := failedFile0.map lineToRow
  let pending := repos_to_process all_rows success_repo_ids failed_repos
  let st0 : RunState :=
    { outputAppends := [], succAppends := [], succIds := success_repo_ids,
      failedOps := [.overwrite []], failedContent := [] }
  runRounds env fuel 0 pending st0

end Retry

namespace DataStats

/-! Embedding of `src/data/data.py` (`parse_topics` and the topic-related
statistics of `analyze_dataset`). -/

/-- A Python literal value, as produced by `ast.literal_eval`. -/
inductive PyLit where
  | none
  | bool (b : Bool)
  | int (n : Int)
  | str (s : String)
  | list (xs : List PyLit)
  | tuple (xs : List PyLit)
  | set (xs : List PyLit)
  | dict (kvs : List (PyLit × PyLit))
deriving Repr

mutual

def pbeq : PyLit → PyLit → Bool
  | .none, .none => true
  | .bool a, .bool b => a == b
  | .int a, .int b => a == b
  | .str a, .str b => a == b
  | .list xs, .list ys => pbeqList xs ys
  | .tuple xs, .tuple ys => pbeqList xs ys
  | .set xs, .set ys => pbeqList xs ys
  | .dict xs, .dict ys => pbeqKV xs ys
  | _, _ => false

def pbeqList : List PyLit → List PyLit → Bool
  | [], [] => true
  | x :: xs, y :: ys => pbeq x y && pbeqList xs ys
  | _, _ => false

def pbeqKV : List (PyLit × PyLit) → List (PyLit × PyLit) → Bool
  | [], [] => true
  | (k₁, v₁) :: xs, (k₂, v₂) :: ys => pbeq k₁ k₂ && pbeq v₁ v₂ && pbeqKV xs ys
  | _, _ => false

end

mutual

theorem pbeq_iff : ∀ a b : PyLit, pbeq a b = true ↔ a = b
  | .none, .none => by simp [pbeq]
  | .bool a, .bool b => by simp [pbeq]
  | .int a, .int b => by simp [pbeq]
  | .str a, .str b => by simp [pbeq]
  | .list xs, .list ys => by simp [pbeq, pbeqList_iff xs ys]
  | .tuple xs, .tuple ys => by simp [pbeq, pbeqList_iff xs ys]
  | .set xs, .set ys => by simp [pbeq, pbeqList_iff xs ys]
  | .dict xs, .dict ys => by simp [pbeq, pbeqKV_iff xs ys]
  | .none, .bool _ | .none, .int _ | .none, .str _ | .none, .list _ | .none, .tuple _ | .none, .set _ | .none, .dict _
  | .bool _, .none | .bool _, .int _ | .bool _, .str _ | .bool _, .list _ | .bool _, .tuple _ | .bool _, .set _ | .bool _, .dict _
  | .int _, .none | .int _, .bool _ | .int _, .str _ | .int _, .list _ | .int _, .tuple _ | .int _, .set _ | .int _, .dict _
  | .str _, .none | .str _, .bool _ | .str _, .int _ | .str _, .list _ | .str _, .tuple _ | .str _, .set _ | .str _, .dict _
  | .list _, .none | .list _, .bool _ | .list _, .int _ | .list _, .str _ | .list _, .tuple _ | .list _, .set _ | .list _, .dict _
  | .tuple _, .none | .tuple _, .bool _ | .tuple _, .int _ | .tuple _, .str _ | .tuple _, .list _ | .tuple _, .set _ | .tuple _, .dict _
  | .set _, .none | .set _, .bool _ | .set _, .int _ | .set _, .str _ | .set _, .list _ | .set _, .tuple _ | .set _, .dict _
  | .dict _, .none | .dict _, .bool _ | .dict _, .int _ | .dict _, .str _ | .dict _, .list _ | .dict _, .tuple _ | .dict _, .set _ => by
      simp [pbeq]

theorem pbeqList_iff : ∀ xs ys : List PyLit, pbeqList xs ys = true ↔ xs = ys
  | [], [] => by simp [pbeqList]
  | [], _ :: _ => by simp [pbeqList]
  | _ :: _, [] => by simp [pbeqList]
  | x :: xs, y :: ys => by
      simp [pbeqList, pbeq_iff x y, pbeqList_iff xs ys]

theorem pbeqKV_iff : ∀ xs ys : List (PyLit × PyLit), pbeqKV xs ys = true ↔ xs = ys
  | [], [] => by simp [pbeqKV]
  | [], _ :: _ => by simp [pbeqKV]
  | _ :: _, [] => by simp [pbeqKV]
  | (k₁, v₁) :: xs, (k₂, v₂) :: ys => by
      simp [pbeqKV, pbeq_iff k₁ k₂, pbeq_iff v₁ v₂, pbeqKV_iff xs ys, and_assoc]

end

instance : DecidableEq PyLit := fun a b => decidable_of_iff _ (pbeq_iff a b)

mutual

/-- Python hashability of a literal value: scalars are hashable, lists, sets
and dicts are not, a tuple is hashable when all its elements are. `set(...)`
raises `TypeError` on an unhashable element. -/
def hashable : PyLit → Bool
  | .none => true
  | .bool _ => true
  | .int _ => true
  | .str _ => true
  | .tuple xs => hashableList xs
  | .list _ => false
  | .set _ => false
  | .dict _ => false

def hashableList : List PyLit → Bool
  | [] => true
  | x :: xs => hashable x && hashableList xs

end

mutual

/-- Python `repr` of a literal value (string escaping simplified to plain
single quotes). -/
def pyRepr : PyLit → String
  | .none => "None"
  | .bool b => if b then "True" else "False"
  | .int n => toString n
  | .str s => "\x27" ++ s ++ "\x27"
  | .list xs => "[" ++ pyReprSep xs ++ "]"
  | .tuple [x] => "(" ++ pyRepr x ++ ",)"
  | .tuple [] => "()"
  | .tuple (x :: y :: xs) => "(" ++ pyReprSep (x :: y :: xs) ++ ")"
  | .set [] => "set()"
  | .set (x :: xs) => "\x7b" ++ pyReprSep (x :: xs) ++ "\x7d"
  | .dict kvs => "\x7b" ++ pyReprKV kvs ++ "\x7d"

def pyReprSep : List PyLit → String
  | [] => ""
  | [x] => pyRepr x
  | x :: xs => pyRepr x ++ ", " ++ pyReprSep xs

def pyReprKV : List (PyLit × PyLit) → String
  | [] => ""
  | [(k, v)] => pyRepr k ++ ": " ++ pyRepr v
  | (k, v) :: kvs => pyRepr k ++ ": " ++ pyRepr v ++ ", " ++ pyReprKV kvs

end

/-- Python `str` of a literal value: the string itself for strings,
otherwise its `repr`. -/
def pyStr : PyLit → String
  | .str s => s
  | v => pyRepr v

/-- The outcome of `ast.literal_eval(topics_str)`: a value, a
`SyntaxError`/`ValueError` (the two exception types `parse_topics` catches),
or any other exception (e.g. the `TypeError` raised while building a set
display with unhashable elements), which `parse_topics` does not catch. -/
inductive EvalOutcome where
  | ok (v : PyLit)
  | syntaxOrValueError
  | otherError (name : String)
deriving DecidableEq, Repr

/-- `parse_topics(topics_str)`, with `ast.literal_eval` supplied as the
oracle `pyEval` (the literal parser is Python's standard library, not this
repository). `Except.error e` models an uncaught exception of type `e`
escaping `parse_topics`; the returned list models the produced set (elements
listed without duplicates). `set(topics)` on a list raises `TypeError` when
some element is unhashable, and only `SyntaxError`/`ValueError` are caught. -/
def parse_topics (pyEval : String → EvalOutcome) (topics_str : String) :
    Except String (List PyLit) :=
  if topics_str = "" then .ok []
  else
    match pyEval topics_str with
    | .otherError e => .error e
    | .syntaxOrValueError => .ok []
    | .ok topics =>
      match topics with
      | .set xs => .ok xs
      | .list xs => if hashableList xs then .ok xs.dedup else .error "TypeError"
      | v => .ok [.str (pyStr v)]

/-- One record of the analysed dataset, restricted to the fields the
statistics read: `a.description`, `a.readme_text`, `a.topics` and
`b.repo_name` (each defaulted to `''` by `repo.get`). -/
structure DataRepo where
  description : String
  readme_text : String
  topics : String
  repo_name : String
deriving DecidableEq, Repr

/-- Python `s and s.strip()` truthiness: the string has a non-whitespace
character. -/
def truthyStripped (s : String) : Bool :=
  s.any (fun c => !c.isWhitespace)

/-- `Counter[t] += 1` over an insertion-ordered association list. -/
def counterAdd (c : List (PyLit × Nat)) (t : PyLit) : List (PyLit × Nat) :=
  match c with
  | [] => [(t, 1)]
  | (k, n) :: rest => if k = t then (k, n + 1) :: rest else (k, n) :: counterAdd rest t

/-- `stats['unique_topics'].update(topics)`: set union, modelled with
first-seen insertion order. -/
def setUpdate (u : List PyLit) (xs : List PyLit) : List PyLit :=
  xs.foldl (fun u t => if t ∈ u then u else u ++ [t]) u

/-- The statistics accumulated by `analyze_dataset`, restricted to the
integer- and set-valued fields (the floating-point average, the
`float('inf')`-seeded min/max, `most_common` ordering and the display-only
sample list are outside the model). -/
structure Stats where
  total_repositories : Nat
  repositories_with_topics : Nat
  repositories_without_topics : Nat
  total_topic_occurrences : Nat
  unique_topics : List PyLit
  topic_frequency : List (PyLit × Nat)
  repositories_with_description : Nat
  repositories_with_readme : Nat
  repositories_with_both_desc_readme : Nat
  empty_descriptions : Nat
  empty_readmes : Nat
deriving DecidableEq, Repr

def initStats : Stats :=
  { total_repositories := 0, repositories_with_topics := 0,
    repositories_without_topics := 0, total_topic_occurrences := 0,
    unique_topics := [], topic_frequency := [],
    repositories_with_description := 0, repositories_with_readme := 0,
    repositories_with_both_desc_readme := 0, empty_descriptions := 0,
    empty_readmes := 0 }

/-- The loop body of `analyze_dataset` for one repository record. An
uncaught exception from `parse_topics` aborts the whole analysis (the
partially updated local stats are lost). `total_topic_occurrences` is
`len(all_topics)`, accumulated as the sum of the topic-set sizes of the
repositories that have topics. -/
def analyzeStep (pyEval : String → EvalOutcome) (st : Stats)
    (repo : DataRepo) : Except String Stats := do
  let st := { st with total_repositories := st.total_repositories + 1 }
  let hasDesc := truthyStripped repo.description
  let hasReadme := truthyStripped repo.readme_text
  let st := { st with
    repositories_with_description :=
      st.repositories_with_description + (if hasDesc then 1 else 0),
    empty_descriptions := st.empty_descriptions + (if hasDesc then 0 else 1),
    repositories_with_readme :=
      st.repositories_with_readme + (if hasReadme then 1 else 0),
    empty_readmes := st.empty_readmes + (if hasReadme then 0 else 1),
    repositories_with_both_desc_readme :=
      st.repositories_with_both_desc_readme +
        (if hasDesc && hasReadme then 1 else 0) }
  let topics ← parse_topics pyEval repo.topics
  if topics.isEmpty then
    pure { st with
      repositories_without_topics := st.repositories_without_topics + 1 }
  else
    pure { st with
      repositories_with_topics := st.repositories_with_topics + 1,
      total_topic_occurrences := st.total_topic_occurrences + topics.length,
      unique_topics := setUpdate st.unique_topics topics,
      topic_frequency := topics.foldl counterAdd st.topic_frequency }

/-- `analyze_dataset(repositories)` (the modelled fields). -/
def analyze_dataset (pyEval : String → EvalOutcome)
    (repositories : List DataRepo) : Except String Stats :=
  repositories.foldlM (analyzeStep pyEval) initStats

/-- `stats['unique_topics_count'] = len(stats['unique_topics'])`. -/
def unique_topics_count (st : Stats) : Nat :=
  st.unique_topics.length

end DataStats

/-! ## Theorems -/

namespace Retry

theorem isNotFoundTag_iff (v : Option Json) :
    isNotFoundTag v = true ↔ v = some (.str "not_found") := by
  match v with
  | none => simp [isNotFoundTag]
  | some j => cases j <;> simp [isNotFoundTag]

/-- **C2** (confirmed). The record built by the Processor has
`success = true` iff the Repo Info resolution succeeded (no `"_error"` tag)
and the Readme resolution either succeeded or failed with the exact reason
`"not_found"`; moreover `readme_text` is `None` exactly on the readme-error
path (in particular in the `"not_found"` case), and otherwise carries the
readme payload's text. -/
theorem process_repo_success_iff (row : Row) (info0 readme_data : Json) :
    ((recordOf row info0 readme_data).success = true ↔
      (info0.hasKey "_error" = false ∧
        (readme_data.hasKey "_error" = false ∨
          readme_data.getKey "_error" = some (.str "not_found")))) ∧
    (recordOf row info0 readme_data).readme_text =
      (if readme_data.hasKey "_error" then none else readme_data.getKey "text") := by
  by_cases hnot : readme_data.getKey "_error" = some (.str "not_found")
  · have h3 : isNotFoundTag (readme_data.getKey "_error") = true :=
      (isNotFoundTag_iff _).mpr hnot
    cases h1 : info0.hasKey "_error" <;> cases h2 : readme_data.hasKey "_error" <;>
      simp [recordOf, h1, h2, h3, hnot, isNotFoundTag]
  · have h3 : isNotFoundTag (readme_data.getKey "_error") = false := by
      cases h : isNotFoundTag (readme_data.getKey "_error")
      · rfl
      · exact absurd ((isNotFoundTag_iff _).mp h) hnot
    cases h1 : info0.hasKey "_error" <;> cases h2 : readme_data.hasKey "_error" <;>
      simp [recordOf, h1, h2, h3, hnot]

/-- The durable append is to the output log. -/
def isOutputEv : FileEvent → Bool
  | .outputAppend _ => true
  | _ => false

/-- The durable append is to the failed-index. -/
def isFailedEv : FileEvent → Bool
  | .failedAppend _ => true
  | _ => false

/-- The durable append is to the success-index. -/
def isSuccEv : FileEvent → Bool
  | .successAppend _ _ => true
  | _ => false

/-- **C3** (confirmed). Each Processor invocation appends exactly once to
the output log when the record is successful and exactly once to the
failed-index otherwise — never both, never neither — and appends to the
success-index exactly when the record is successful and `repo_id` is not
already in the success-id set. -/
theorem process_repo_exactly_one_durable_append (row : Row)
    (info0 readme_data : Json) (ids : List String) :
    ((process_repo row info0 readme_data ids).2.1.countP isOutputEv =
      if (process_repo row info0 readme_data ids).1.success then 1 else 0) ∧
    ((process_repo row info0 readme_data ids).2.1.countP isFailedEv =
      if (process_repo row info0 readme_data ids).1.success then 0 else 1) ∧
    ((process_repo row info0 readme_data ids).2.1.countP isSuccEv =
      if (process_repo row info0 readme_data ids).1.success ∧ row.repo_id ∉ ids
      then 1 else 0) := by
  cases hs : (recordOf row info0 readme_data).success <;>
    by_cases hm : row.repo_id ∈ ids <;>
      simp [process_repo, hs, hm, List.countP_cons, isOutputEv, isFailedEv, isSuccEv]

/-- **C1** (refuted at a concrete input). When the info resolution fails
with reason `"status_500"` and the readme resolution fails with reason
`"no_content_field"` (≠ `"not_found"`), the produced record's `fail_reason`
is the readme resolver's reason, not the info resolver's. -/
theorem fail_reason_counterexample :
    (recordOf ⟨"1", "o/r", "5.0"⟩ (errObj "status_500")
        (errObj "no_content_field")).success = false ∧
    (recordOf ⟨"1", "o/r", "5.0"⟩ (errObj "status_500")
        (errObj "no_content_field")).fail_reason =
      some (.str "no_content_field") ∧
    (recordOf ⟨"1", "o/r", "5.0"⟩ (errObj "status_500")
        (errObj "no_content_field")).fail_reason ≠ some (.str "status_500") := by
  refine ⟨rfl, rfl, ?_⟩
  decide

/-- **C1** (amended claim, proved). When both resolutions fail and the
readme error reason is not `"not_found"`, the record's `fail_reason` equals
the readme resolver's error reason: step 2 overwrites the reason set by
step 1, so the last-observed error wins. -/
theorem readme_error_overwrites_fail_reason (row : Row)
    (info0 readme_data : Json)
    (h1 : info0.hasKey "_error" = true)
    (h2 : readme_data.hasKey "_error" = true)
    (h3 : readme_data.getKey "_error" ≠ some (.str "not_found")) :
    (recordOf row info0 readme_data).fail_reason =
      readme_data.getKey "_error" := by
  have h3' : isNotFoundTag (readme_data.getKey "_error") = false := by
    cases h : isNotFoundTag (readme_data.getKey "_error")
    · rfl
    · exact absurd ((isNotFoundTag_iff _).mp h) h3
  simp [recordOf, h1, h2, h3']

/-- **C4** (confirmed). `fetch_json` classifies every HTTP call as
specified: a 200 response returns the parsed payload with no sleep; a 404
returns the `"not_found"` tag immediately with no retry; any status outside
{200, 404, 403, 429} returns the `"status_<code>"` tag with no retry; a run
of transport exceptions is retried `RETRY_LIMIT` times with `2^attempt`
backoff sleeps and, once exhausted, yields the
`"exception_<type>: <message>"` tag of the last attempt; a run of 403/429
responses whose quota is not exhausted is retried with the same backoff and,
once exhausted, yields `"rate_limit_or_forbidden_<code>"`. (The embedding is
total — every raise site of the Python body is inside its `try` — which is
the claim's "never raises".) -/
theorem fetch_json_classification :
    (∀ (responses : Nat → Attempt) (now : Int) (retry : Nat) (r : HttpResp),
      responses retry = .resp r → r.status = 200 →
      fetch_json responses now retry = (r.body, [])) ∧
    (∀ (responses : Nat → Attempt) (now : Int) (retry : Nat) (r : HttpResp),
      responses retry = .resp r → r.status = 404 →
      fetch_json responses now retry = (errObj "not_found", [])) ∧
    (∀ (responses : Nat → Attempt) (now : Int) (retry : Nat) (r : HttpResp),
      responses retry = .resp r →
      r.status ≠ 200 → r.status ≠ 404 → r.status ≠ 403 → r.status ≠ 429 →
      fetch_json responses now retry =
        (errObj ("status_" ++ toString r.status), [])) ∧
    (∀ (responses : Nat → Attempt) (now : Int) (ty msg : Nat → String),
      (∀ i, i ≤ RETRY_LIMIT → responses i = .exc (ty i) (msg i)) →
      fetch_json responses now 0 =
        (errObj ("exception_" ++ ty RETRY_LIMIT ++ ": " ++ msg RETRY_LIMIT),
         [1, 2, 4])) ∧
    (∀ (responses : Nat → Attempt) (now : Int) (r : Nat → HttpResp),
      (∀ i, i ≤ RETRY_LIMIT → responses i = .resp (r i)) →
      (∀ i, i ≤ RETRY_LIMIT → (r i).status = 403 ∨ (r i).status = 429) →
      (∀ i, i ≤ RETRY_LIMIT → ¬((r i).remaining = some "0" ∧ (r i).reset.isSome)) →
      fetch_json responses now 0 =
        (errObj ("rate_limit_or_forbidden_" ++ toString (r RETRY_LIMIT).status),
         [1, 2, 4])) := by
  refine ⟨?_, ?_, ?_, ?_, ?_⟩
  · intro responses now retry r h h200
    simp [fetch_json, h, h200]
  · intro responses now retry r h h404
    simp [fetch_json, h, h404]
  · intro responses now retry r h hne200 hne404 hne403 hne429
    simp [fetch_json, h, hne200, hne404, hne403, hne429]
  · intro responses now ty msg h
    simp [fetch_json, RETRY_LIMIT,
      h 0 (by simp [RETRY_LIMIT]), h 1 (by simp [RETRY_LIMIT]),
      h 2 (by simp [RETRY_LIMIT]), h 3 (by simp [RETRY_LIMIT])]
  · intro responses now r hresp hstat hq
    have e0 := hresp 0 (by simp [RETRY_LIMIT])
    have e1 := hresp 1 (by simp [RETRY_LIMIT])
    have e2 := hresp 2 (by simp [RETRY_LIMIT])
    have e3 := hresp 3 (by simp [RETRY_LIMIT])
    have ne : ∀ i, i ≤ RETRY_LIMIT → (r i).status ≠ 200 ∧ (r i).status ≠ 404 := by
      intro i hi
      rcases hstat i hi with h | h <;> simp [h]
    simp [fetch_json, RETRY_LIMIT, e0, e1, e2, e3,
      (ne 0 (by simp [RETRY_LIMIT])).1, (ne 0 (by simp [RETRY_LIMIT])).2,
      (ne 1 (by simp [RETRY_LIMIT])).1, (ne 1 (by simp [RETRY_LIMIT])).2,
      (ne 2 (by simp [RETRY_LIMIT])).1, (ne 2 (by simp [RETRY_LIMIT])).2,
      (ne 3 (by simp [RETRY_LIMIT])).1, (ne 3 (by simp [RETRY_LIMIT])).2,
      hstat 0 (by simp [RETRY_LIMIT]), hstat 1 (by simp [RETRY_LIMIT]),
      hstat 2 (by simp [RETRY_LIMIT]), hstat 3 (by simp [RETRY_LIMIT]),
      hq 0 (by simp [RETRY_LIMIT]), hq 1 (by simp [RETRY_LIMIT]),
      hq 2 (by simp [RETRY_LIMIT]), hq 3 (by simp [RETRY_LIMIT])]

theorem fetch_json_classification_witness :
    fetch_json (fun _ => .resp ⟨200, none, none, .str "payload"⟩) 0 0 =
      (.str "payload", []) ∧
    fetch_json (fun _ => .resp ⟨404, none, none, .null⟩) 0 0 =
      (errObj "not_found", []) ∧
    fetch_json (fun _ => .resp ⟨500, none, none, .null⟩) 0 0 =
      (errObj "status_500", []) ∧
    fetch_json (fun _ => .exc "ConnectionError" "boom") 0 0 =
      (errObj "exception_ConnectionError: boom", [1, 2, 4]) ∧
    fetch_json (fun _ => .resp ⟨429, some "5", none, .null⟩) 0 0 =
      (errObj "rate_limit_or_forbidden_429", [1, 2, 4]) :=
  ⟨fetch_json_classification.1 _ 0 0 ⟨200, none, none, .str "payload"⟩ rfl rfl,
   fetch_json_classification.2.1 _ 0 0 ⟨404, none, none, .null⟩ rfl rfl,
   fetch_json_classification.2.2.1 _ 0 0 ⟨500, none, none, .null⟩ rfl
     (by decide) (by decide) (by decide) (by decide),
   fetch_json_classification.2.2.2.1 _ 0
     (fun _ => "ConnectionError") (fun _ => "boom") (fun _ _ => rfl),
   fetch_json_classification.2.2.2.2 _ 0
     (fun _ => ⟨429, some "5", none, .null⟩) (fun _ _ => rfl)
     (fun _ _ => Or.inr rfl) (fun _ _ => by simp)⟩

/-- **C9** (confirmed). A metadata fetch that yields HTTP 200 with a falsy
payload (empty dict, empty list, `null`, …) is classified by
`get_repo_info` as a failure with the `"unknown_error"` tag — never as a
success with empty fields. -/
theorem get_repo_info_falsy_payload (responses : Nat → Attempt) (now : Int)
    (r : HttpResp) (h1 : responses 0 = .resp r) (h2 : r.status = 200)
    (h3 : r.body.falsy = true) :
    get_repo_info (fetch_json responses now 0).1 = errObj "unknown_error" := by
  have hb : (fetch_json responses now 0).1 = r.body := by
    simp [fetch_json, h1, h2]
  rw [hb]
  simp [get_repo_info, h3, errObj]

theorem get_repo_info_falsy_payload_witness :
    get_repo_info
        (fetch_json (fun _ => .resp ⟨200, none, none, .obj []⟩) 0 0).1 =
      errObj "unknown_error" :=
  get_repo_info_falsy_payload _ 0 ⟨200, none, none, .obj []⟩ rfl rfl rfl

theorem readme_error_overwrites_fail_reason_witness :
    (errObj "status_500").hasKey "_error" = true ∧
    (errObj "no_content_field").hasKey "_error" = true ∧
    (errObj "no_content_field").getKey "_error" ≠ some (.str "not_found") ∧
    (recordOf ⟨"1", "o/r", "5.0"⟩ (errObj "status_500")
        (errObj "no_content_field")).fail_reason =
      (errObj "no_content_field").getKey "_error" :=
  ⟨rfl, rfl, by decide,
   readme_error_overwrites_fail_reason ⟨"1", "o/r", "5.0"⟩ _ _ rfl rfl (by decide)⟩

theorem dictLookup_insert (k k' : String) (v : Row) (d : List (String × Row)) :
    dictLookup k (dictInsert k' v d) =
      if k' = k then some v else dictLookup k d := by
  induction d with
  | nil => simp [dictInsert, dictLookup]
  | cons p rest ih =>
    obtain ⟨kp, vp⟩ := p
    by_cases h : kp = k' <;> by_cases hk : k' = k <;>
      simp_all [dictInsert, dictLookup]

theorem dictHas_eq_isSome (k : String) (d : List (String × Row)) :
    dictHas k d = (dictLookup k d).isSome := by
  induction d with
  | nil => simp [dictHas, dictLookup]
  | cons p rest ih =>
    obtain ⟨kp, vp⟩ := p
    by_cases h : kp = k
    · simp [dictHas, dictLookup, h]
    · simpa [dictHas, dictLookup, h] using ih

theorem dictLookup_foldl_insert (k : String) (rows : List Row) :
    ∀ d0 : List (String × Row),
      dictLookup k (rows.foldl (fun d r => dictInsert r.repo_id r d) d0) =
        rows.foldl (fun acc r => if r.repo_id = k then some r else acc)
          (dictLookup k d0) := by
  induction rows with
  | nil => intro d0; rfl
  | cons r rest ih =>
    intro d0
    simp only [List.foldl_cons]
    rw [ih, dictLookup_insert]

theorem getLast?_cons_or (r : Row) (l : List Row) :
    (r :: l).getLast? = l.getLast?.or (some r) := by
  induction l generalizing r with
  | nil => rfl
  | cons x xs ih =>
    rw [List.getLast?_cons_cons, ih x, Option.or_assoc, Option.or_some]

theorem foldl_lastUpdate (k : String) (rows : List Row) :
    ∀ init : Option Row,
      rows.foldl (fun acc r => if r.repo_id = k then some r else acc) init =
        ((rows.filter (fun r => r.repo_id = k)).getLast?).or init := by
  induction rows with
  | nil => intro init; simp
  | cons r rest ih =>
    intro init
    simp only [List.foldl_cons, List.filter_cons]
    by_cases h : r.repo_id = k
    · simp [h, ih, getLast?_cons_or, Option.or_assoc]
    · simp [h, ih]

theorem dictLookup_foldl_guarded (k : String) (failed : List Row) :
    ∀ d0 : List (String × Row),
      dictLookup k (failed.foldl
          (fun d r => if dictHas r.repo_id d then d
                      else dictInsert r.repo_id r d) d0) =
        (dictLookup k d0).or ((failed.filter (fun r => r.repo_id = k)).head?) := by
  induction failed with
  | nil => intro d0; simp
  | cons r rest ih =>
    intro d0
    simp only [List.foldl_cons, List.filter_cons]
    by_cases hr : r.repo_id = k
    · by_cases hd : dictHas r.repo_id d0
      · rw [if_pos hd, ih]
        have : (dictLookup k d0).isSome := by
          rw [← dictHas_eq_isSome, ← hr]; exact hd
        obtain ⟨v, hv⟩ := Option.isSome_iff_exists.mp this
        simp [hv, hr]
      · rw [if_neg hd, ih, dictLookup_insert]
        have : dictLookup k d0 = none := by
          have h' : dictHas k d0 = false := by rw [← hr]; exact Bool.eq_false_iff.mpr hd
          rw [dictHas_eq_isSome] at h'
          exact Option.not_isSome_iff_eq_none.mp (by simp [h'])
        simp [hr, this]
    · by_cases hd : dictHas r.repo_id d0
      · rw [if_pos hd, ih]
        simp [hr]
      · rw [if_neg hd, ih, dictLookup_insert]
        simp [hr]

theorem mem_keys_insert (a k : String) (v : Row) (d : List (String × Row)) :
    a ∈ (dictInsert k v d).map (·.1) ↔ a = k ∨ a ∈ d.map (·.1) := by
  induction d with
  | nil => simp [dictInsert]
  | cons p rest ih =>
    obtain ⟨kp, vp⟩ := p
    by_cases h : kp = k <;> simp [dictInsert, h, ih] <;> tauto

theorem nodup_keys_insert (k : String) (v : Row) (d : List (String × Row))
    (h : (d.map (·.1)).Nodup) : ((dictInsert k v d).map (·.1)).Nodup := by
  induction d with
  | nil => simp [dictInsert]
  | cons p rest ih =>
    obtain ⟨kp, vp⟩ := p
    simp only [List.map_cons, List.nodup_cons] at h
    by_cases hk : kp = k
    · subst hk
      simpa [dictInsert, List.nodup_cons] using h
    · simp only [dictInsert, if_neg hk, List.map_cons, List.nodup_cons]
      refine ⟨fun hm => ?_, ih h.2⟩
      rcases (mem_keys_insert kp k v rest).mp hm with h' | h'
      · exact hk h'
      · exact h.1 h'

theorem nodup_keys_foldl_insert (rows : List Row) :
    ∀ d0 : List (String × Row), (d0.map (·.1)).Nodup →
      (((rows.foldl (fun d r => dictInsert r.repo_id r d) d0)).map (·.1)).Nodup := by
  induction rows with
  | nil => intro d0 h; exact h
  | cons r rest ih =>
    intro d0 h
    simp only [List.foldl_cons]
    exact ih _ (nodup_keys_insert _ _ _ h)

theorem nodup_keys_foldl_guarded (failed : List Row) :
    ∀ d0 : List (String × Row), (d0.map (·.1)).Nodup →
      (((failed.foldl (fun d r => if dictHas r.repo_id d then d
          else dictInsert r.repo_id r d) d0)).map (·.1)).Nodup := by
  induction failed with
  | nil => intro d0 h; exact h
  | cons r rest ih =>
    intro d0 h
    simp only [List.foldl_cons]
    by_cases hd : dictHas r.repo_id d0
    · rw [if_pos hd]; exact ih _ h
    · rw [if_neg hd]; exact ih _ (nodup_keys_insert _ _ _ h)

/-- The records produced by one round of the scheduler. -/
def roundRecords (env : Row → Json × Json) (pending : List Row) : List Record :=
  pending.map fun row => recordOf row (env row).1 (env row).2

/-- The failing records of one round. -/
def roundFails (env : Row → Json × Json) (pending : List Row) : List Record :=
  (roundRecords env pending).filter (fun r => !r.success)

theorem runRound_failedOps (env : Row → Json × Json) (pending : List Row) :
    ∀ st : RunState, (runRound env pending st).1.failedOps =
      st.failedOps ++ (roundFails env pending).map FailedFileOp.append := by
  induction pending with
  | nil => intro st; simp [runRound, roundFails, roundRecords]
  | cons row rest ih =>
    intro st
    cases hs : (recordOf row (env row).1 (env row).2).success <;>
      by_cases hm : row.repo_id ∈ st.succIds <;>
        simp [runRound, process_repo, hs, hm, applyEvent, roundFails, roundRecords,
          List.filter_cons, ih]

theorem runRound_failed (env : Row → Json × Json) (pending : List Row) :
    ∀ st : RunState,
      (runRound env pending st).2 = (roundFails env pending).map rowOf := by
  induction pending with
  | nil => intro st; simp [runRound, roundFails, roundRecords]
  | cons row rest ih =>
    intro st
    cases hs : (recordOf row (env row).1 (env row).2).success <;>
      by_cases hm : row.repo_id ∈ st.succIds <;>
        simp [runRound, process_repo, hs, hm, roundFails, roundRecords,
          List.filter_cons, ih]

/-- Modelled from the spec (amended): the failed-index file operations the
run is expected to perform from a given round on — per round, one append of
each failing result record (in processing order), then, when there were
failures, one full overwrite with exactly those records' work items before
the next round. -/
def expectedFailedOps (env : Nat → Row → Json × Json) :
    Nat → Nat → List Row → List FailedFileOp
  | 0, _, _ => []
  | fuel + 1, round, pending =>
    if pending.isEmpty then []
    else
      (roundFails (env round) pending).map .append ++
        (if ((roundFails (env round) pending).map rowOf).isEmpty then []
         else .overwrite ((roundFails (env round) pending).map rowOf) ::
           expectedFailedOps env fuel (round + 1)
             ((roundFails (env round) pending).map rowOf))

theorem runRounds_failedOps (env : Nat → Row → Json × Json) :
    ∀ (fuel round : Nat) (pending : List Row) (st : RunState),
      (runRounds env fuel round pending st).1.failedOps =
        st.failedOps ++ expectedFailedOps env fuel round pending := by
  intro fuel
  induction fuel with
  | zero => intro round pending st; simp [runRounds, expectedFailedOps]
  | succ fuel ih =>
    intro round pending st
    by_cases hp : pending.isEmpty
    · simp [runRounds, expectedFailedOps, hp]
    · simp only [runRounds, expectedFailedOps, hp, if_neg, Bool.false_eq_true,
        ite_false]
      rw [runRound_failed]
      by_cases hf : ((roundFails (env round) pending).map rowOf).isEmpty
      · simp [hf, runRound_failedOps]
      · simp [hf, ih, runRound_failedOps, List.append_assoc]

/-- **C5** (confirmed). At Scheduler initialization: (i) the pending dict
associates to each `repo_id` the last input row with that id not already in
the success-id set, and otherwise the first previously persisted failed-index
row with that id — so pending is exactly the non-succeeded input rows
unioned with the failed-index entries, deduplicated by `repo_id` with the
input-source row winning on conflict; (ii) no `repo_id` occurs twice; and
(iii) the first failed-index file operation of any run is the truncation
`save_jsonl(FAILED_FILE, [])`, before the first round. -/
theorem scheduler_init_pending (all_rows : List Row) (succ : List String)
    (failed : List Row) :
    (∀ k, dictLookup k (pending_dict all_rows succ failed) =
        ((all_rows.filter
            (fun r => r.repo_id = k && !succ.contains r.repo_id)).getLast?).or
          ((failed.filter (fun r => r.repo_id = k)).head?)) ∧
    ((pending_dict all_rows succ failed).map (·.1)).Nodup ∧
    (∀ (env : Nat → Row → Json × Json) (fuel : Nat)
        (succFile0 : List (String × String)) (failedFile0 : List FailedLine),
      ∃ ops, (mainRun env fuel all_rows succFile0 failedFile0).1.failedOps =
        FailedFileOp.overwrite [] :: ops) := by
  refine ⟨?_, ?_, ?_⟩
  · intro k
    rw [pending_dict, dictLookup_foldl_guarded, dictLookup_foldl_insert,
      foldl_lastUpdate]
    simp [List.filter_filter, Bool.and_comm, dictLookup]
  · exact nodup_keys_foldl_guarded _ _ (nodup_keys_foldl_insert _ _ (by simp))
  · intro env fuel succFile0 failedFile0
    refine ⟨expectedFailedOps env fuel 0
      (repos_to_process all_rows (succFile0.map (·.1)) (failedFile0.map lineToRow)), ?_⟩
    simp [mainRun, runRounds_failedOps]

/-- **C7** (amended claim, proved). Over any run, the failed-index file
operations are exactly: the initial truncation (`save_jsonl(FAILED_FILE, [])`),
then per round one append of each failing result record — the Processor
appends to the failed-index *during* the round — followed, whenever the
round had failures, by one full overwrite with exactly the work items of
that round's failing records. -/
theorem failed_index_op_trace (env : Nat → Row → Json × Json) (fuel : Nat)
    (all_rows : List Row) (succFile0 : List (String × String))
    (failedFile0 : List FailedLine) :
    (mainRun env fuel all_rows succFile0 failedFile0).1.failedOps =
      FailedFileOp.overwrite [] :: expectedFailedOps env fuel 0
        (repos_to_process all_rows (succFile0.map (·.1))
          (failedFile0.map lineToRow)) := by
  simp [mainRun, runRounds_failedOps]

/-- First example work item for the two-round scenario. -/
def exRowA : Row := ⟨"1", "octo/alpha", "1.0"⟩

/-- Second example work item for the two-round scenario. -/
def exRowB : Row := ⟨"2", "octo/beta", "2.0"⟩

/-- A successful Repo Info resolver outcome. -/
def exInfo : Json :=
  .obj [("description", .str "d"), ("homepage_url", .null), ("topics", .arr [])]

/-- A successful Readme resolver outcome. -/
def exReadme : Json := .obj [("text", .str "hi")]

/-- Resolver outcomes for the two-round scenario: in round 0 the second
repository's info fetch fails with `status_500`; from round 1 on everything
succeeds. -/
def exEnvFirst : Nat → Row → Json × Json := fun round row =>
  if round = 0 ∧ row.repo_id = "2" then (errObj "status_500", exReadme)
  else (exInfo, exReadme)

/-- Resolver outcomes where every fetch succeeds. -/
def exEnvGood : Nat → Row → Json × Json := fun _ _ => (exInfo, exReadme)

/-- The state after a first complete run on fresh files: repo 1 succeeds in
round 0, repo 2 fails in round 0 and succeeds in round 1. -/
def exRun1 : RunState × Bool := mainRun exEnvFirst 2 [exRowA, exRowB] [] []

/-- The state after re-running with the same input, the success-index
produced by the first run, and the failed-index file as the first run left
it. -/
def exRun2 : RunState × Bool :=
  mainRun exEnvGood 2 [exRowA, exRowB] exRun1.1.succAppends exRun1.1.failedContent

/-- **C7** (refuted at a concrete input). In the two-round scenario the
failed-index file does *not* change only by round-boundary overwrites:
during round 0 the Processor appends the failing result record (a full
`ResultRecord`, not a bare WorkItem) to the file, between the initial
truncation and the round-boundary overwrite. -/
theorem failed_index_intraround_append :
    exRun1.1.failedOps =
      [FailedFileOp.overwrite [],
       FailedFileOp.append (recordOf exRowB (errObj "status_500") exReadme),
       FailedFileOp.overwrite [exRowB]] ∧
    (recordOf exRowB (errObj "status_500") exReadme).success = false := by
  exact ⟨rfl, rfl⟩

/-- **C6** (refuted at a concrete input). The first run is complete (the
retry loop terminated) and its success-index records both repositories; yet
because the failed-index file still holds repo 2 (overwritten before the
final all-success round, never cleared afterwards), a second run with the
same input and the produced success-index re-processes repo 2 and appends a
duplicate output-log record for it (it does not duplicate the
success-index entry). -/
theorem second_run_duplicates_output :
    exRun1.2 = true ∧
    exRun1.1.outputAppends.map (·.repo_id) = ["1", "2"] ∧
    ("2", "octo/beta") ∈ exRun1.1.succAppends ∧
    exRun2.1.outputAppends.map (·.repo_id) = ["2"] ∧
    exRun2.1.succAppends = [] := by
  refine ⟨rfl, rfl, ?_, rfl, rfl⟩
  decide

/-- **C6** (amended claim, proved). Re-running the Scheduler with the same
input and a success-index covering every input `repo_id` is idempotent
*provided the failed-index file is empty at the start of the second run*:
nothing is processed, no output-log record and no success-index entry is
appended, and the run terminates at once. (When the failed-index file is
non-empty — as a first run that needed more than one round leaves it — its
items are re-processed and may be re-appended to the output log, though the
success-index is never duplicated.) -/
theorem second_run_noop_on_empty_failed_index (env : Nat → Row → Json × Json)
    (fuel : Nat) (all_rows : List Row) (succFile0 : List (String × String))
    (hall : ∀ row ∈ all_rows, row.repo_id ∈ succFile0.map (·.1)) :
    (mainRun env fuel all_rows succFile0 []).1.outputAppends = [] ∧
    (mainRun env fuel all_rows succFile0 []).1.succAppends = [] ∧
    (mainRun env fuel all_rows succFile0 []).2 = true := by
  have hfilter :
      all_rows.filter (fun r => !decide (r.repo_id ∈ succFile0.map (·.1))) = [] := by
    rw [List.filter_eq_nil_iff]
    intro r hr
    simp [hall r hr]
  have hpend :
      repos_to_process all_rows (succFile0.map (·.1)) ([] : List Row) = [] := by
    simp [repos_to_process, pending_dict, hfilter]
  cases fuel <;> simp [mainRun, hpend, runRounds]

theorem second_run_noop_on_empty_failed_index_witness :
    (mainRun exEnvGood 2 [exRowA, exRowB]
        [("1", "octo/alpha"), ("2", "octo/beta")] []).1.outputAppends = [] ∧
    (mainRun exEnvGood 2 [exRowA, exRowB]
        [("1", "octo/alpha"), ("2", "octo/beta")] []).1.succAppends = [] ∧
    (mainRun exEnvGood 2 [exRowA, exRowB]
        [("1", "octo/alpha"), ("2", "octo/beta")] []).2 = true :=
  second_run_noop_on_empty_failed_index exEnvGood 2 [exRowA, exRowB]
    [("1", "octo/alpha"), ("2", "octo/beta")] (by decide)

end Retry

namespace DataStats

theorem hashableList_eq_all (xs : List PyLit) :
    hashableList xs = xs.all hashable := by
  induction xs with
  | nil => rfl
  | cons x xs ih => simp [hashableList, List.all_cons, ih]

/-- The `ast.literal_eval` oracle for the aggregator scenario: the three
topics strings parse to the lists `['a', 'b']`, `['a']` (the third record's
topics string is empty and is never parsed). -/
def scenarioEval : String → EvalOutcome := fun s =>
  if s = "[\x27a\x27, \x27b\x27]" then .ok (.list [.str "a", .str "b"])
  else if s = "[\x27a\x27]" then .ok (.list [.str "a"])
  else .syntaxOrValueError

/-- Three records whose topic sets are `{"a","b"}`, `{"a"}` and `{}`. -/
def scenarioRepos : List DataRepo :=
  [{ description := "d1", readme_text := "r1",
     topics := "[\x27a\x27, \x27b\x27]", repo_name := "n1" },
   { description := "d2", readme_text := "r2",
     topics := "[\x27a\x27]", repo_name := "n2" },
   { description := "d3", readme_text := "r3",
     topics := "", repo_name := "n3" }]

/-- **C8** (confirmed). On exactly three input records with topic sets
`{"a","b"}`, `{"a"}` and `{}`, `analyze_dataset` reports
`unique_topics_count = 2`, `repositories_with_topics = 2` and the topic
frequency `{"a": 2, "b": 1}`. -/
theorem aggregator_scenario :
    (analyze_dataset scenarioEval scenarioRepos).map
        (fun st => (unique_topics_count st, st.repositories_with_topics,
                    st.topic_frequency)) =
      .ok (2, 2, [(.str "a", 2), (.str "b", 1)]) := by
  rfl

/-- An `ast.literal_eval` oracle under which `"[[1]]"` parses to the
nested-list literal `[[1]]`. -/
def nestedListEval : String → EvalOutcome := fun s =>
  if s = "[[1]]" then .ok (.list [.list [.int 1]]) else .syntaxOrValueError

/-- **C10** (refuted at a concrete input). `parse_topics` is not total: on
the string `"[[1]]"` (a valid Python literal whose elements are unhashable),
`set(topics)` raises `TypeError`, which the `except (SyntaxError,
ValueError)` clause does not catch, so no topic set is returned. -/
theorem parse_topics_raises :
    parse_topics nestedListEval "[[1]]" = .error "TypeError" ∧
    ¬ ∃ xs, parse_topics nestedListEval "[[1]]" = .ok xs := by
  refine ⟨rfl, ?_⟩
  rintro ⟨xs, h⟩
  rw [show parse_topics nestedListEval "[[1]]" = .error "TypeError" from rfl] at h
  exact Except.noConfusion h

/-- **C10** (amended claim, proved). `parse_topics` behaves as claimed on
every input except a list literal with an unhashable element: the empty
string and any string `literal_eval` rejects with `SyntaxError`/`ValueError`
yield the empty set; a set literal yields its elements; a list literal with
all-hashable elements yields the set of its elements; any other literal
yields the singleton of the value's string form; but a list literal with an
unhashable element raises an uncaught `TypeError`. -/
theorem parse_topics_characterization (pyEval : String → EvalOutcome)
    (s : String) :
    (s = "" → parse_topics pyEval s = .ok []) ∧
    (s ≠ "" → pyEval s = .syntaxOrValueError →
      parse_topics pyEval s = .ok []) ∧
    (∀ xs, s ≠ "" → pyEval s = .ok (.set xs) →
      parse_topics pyEval s = .ok xs) ∧
    (∀ xs, s ≠ "" → pyEval s = .ok (.list xs) → xs.all hashable = true →
      ∃ ys, parse_topics pyEval s = .ok ys ∧ ∀ t, t ∈ ys ↔ t ∈ xs) ∧
    (∀ xs, s ≠ "" → pyEval s = .ok (.list xs) → xs.all hashable = false →
      parse_topics pyEval s = .error "TypeError") ∧
    (∀ v, s ≠ "" → pyEval s = .ok v →
      (∀ xs, v ≠ .list xs) → (∀ xs, v ≠ .set xs) →
      parse_topics pyEval s = .ok [.str (pyStr v)]) := by
  refine ⟨?_, ?_, ?_, ?_, ?_, ?_⟩
  · intro h
    simp [parse_topics, h]
  · intro hs he
    simp [parse_topics, hs, he]
  · intro xs hs he
    simp [parse_topics, hs, he]
  · intro xs hs he hall
    refine ⟨xs.dedup, ?_, fun t => List.mem_dedup⟩
    simp [parse_topics, hs, he, hashableList_eq_all, hall]
  · intro xs hs he hall
    simp [parse_topics, hs, he, hashableList_eq_all, hall]
  · intro v hs he hnl hns
    cases v with
    | list xs => exact absurd rfl (hnl xs)
    | set xs => exact absurd rfl (hns xs)
    | none => simp [parse_topics, hs, he]
    | bool b => simp [parse_topics, hs, he]
    | int n => simp [parse_topics, hs, he]
    | str t => simp [parse_topics, hs, he]
    | tuple xs => simp [parse_topics, hs, he]
    | dict kvs => simp [parse_topics, hs, he]

theorem parse_topics_characterization_witness :
    parse_topics (fun _ => .ok (.set [.str "a"])) "x" = .ok [.str "a"] :=
  (parse_topics_characterization (fun _ => .ok (.set [.str "a"])) "x").2.2.1
    [.str "a"] (by decide) rfl

end DataStats

end OpenScope
